import Mathlib

/-!
Verification development for `src/llmmanager/llmmanager.py`.

The module is shallowly embedded as follows.

* Module-level configuration (`OPENAI_API_KEY`, `LLM_RETRIES`,
  `LLM_RETRY_DELAY_SECONDS`, read from the process environment) becomes the
  `Env` structure.  `os.getenv` may return `None` for the key, hence
  `Option String`; the two counters are Python `int`s, hence `Int`.
* The `LLMManager` class becomes the `LLMManager` structure; its constructor
  (`__init__`) becomes `mkManager`.  The constructor's storage side effects
  (`create_tables`, `validate_tables`) are modelled by the separate schema
  functions below.
* SQLite is modelled by its observable behaviour for one `generate_response`
  call: the outcome of the prompt `INSERT` (+`commit`, yielding `lastrowid`)
  and the outcome of the response `INSERT` (+`commit`), each of which can
  fault — the `Storage` structure.  Rows actually written are returned in
  `GenResult.promptRows` / `GenResult.responseRows`.  The wall-clock
  `timestamp` column is not modelled (no claim mentions its value).
* The OpenAI client is an injected capability
  `remote : Option String → Nat → Except String RemoteSuccess`: the key the
  client was constructed with, and the 0-based attempt counter at call time,
  determine either a structured success or a per-attempt error.  The source
  builds the client with `openai.OpenAI(api_key=OPENAI_API_KEY)`, i.e. from
  the module-level environment credential, which is why `generate_response`
  below passes `env.openai_api_key` to `remote`.
* `time.sleep` and each remote invocation are recorded in an event trace
  (`Event`), so attempt counts and inter-attempt delays are provable.
-/

namespace LLMManagerSpec

/-- Module-level configuration of `llmmanager.py`: `OPENAI_API_KEY`,
`LLM_RETRIES` (default 3) and `LLM_RETRY_DELAY_SECONDS` (default 2). -/
structure Env where
  openai_api_key : Option String
  llm_retries : Int
  llm_retry_delay_seconds : Int

/-- The `LLMManager` object state set up by `__init__`: the db filename and
constructor credential are stored on the instance; `retries` and
`retry_delay_seconds` are copied from the module-level configuration. -/
structure LLMManager where
  db_filename : String
  api_key : String
  retries : Int
  retry_delay_seconds : Int

/-- `LLMManager.__init__(db_filename, api_key)`: stores its arguments and
copies `LLM_RETRIES` / `LLM_RETRY_DELAY_SECONDS` from the environment.
(The constructor also opens the connection, creates and validates the
tables — modelled by the schema functions below.) -/
def mkManager (env : Env) (db_filename : String) (api_key : String) : LLMManager :=
  { db_filename := db_filename
    api_key := api_key
    retries := env.llm_retries
    retry_delay_seconds := env.llm_retry_delay_seconds }

/-- A structured success of one remote call, as read off the OpenAI response
object in the source: `response.model_dump_json()` (always a string),
`choices[0].message.content` (nullable), `choices[0].message.refusal`
(nullable), `choices[0].finish_reason` (a string in the client's type). -/
structure RemoteSuccess where
  payload : String
  content : Option String
  refusal : Option String
  finish_reason : String
  deriving DecidableEq

/-- Behaviour of the SQLite store for one `generate_response` call: outcome
of the prompt-row `INSERT`+`commit` (faulting, or yielding `lastrowid`) and
outcome of the response-row `INSERT`+`commit`. -/
structure Storage where
  promptInsert : Except String Nat
  responseInsert : Except String Unit

/-- Observable events of the attempt loop: one remote invocation (argument:
the value of the `attempt` counter at call time), or one `time.sleep`. -/
inductive Event where
  | call (attempt : Nat)
  | sleep (seconds : Int)
  deriving DecidableEq

/-- The mapping `generate_response` returns:
`{"content": ..., "status": ..., "finish_reason": ..., "refusal": ...}`. -/
structure View where
  content : Option String
  status : String
  finish_reason : Option String
  refusal : Option String
  deriving DecidableEq

/-- A row of the `prompts` table (surrogate `id` key omitted; it is the
`Nat` returned by `Storage.promptInsert`). -/
structure PromptRow where
  prompt : String
  system_message : String
  model : String
  deriving DecidableEq

/-- A row of the `responses` table (surrogate `id` and wall-clock
`timestamp` omitted). -/
structure ResponseRow where
  prompt_id : Nat
  response : Option String
  error : Option String
  status : String
  refusal : Option String
  finish_reason : Option String
  prompt_tokens : Option Nat
  response_tokens : Option Nat
  deriving DecidableEq

/-- Result of one `generate_response` call: the returned view, the rows
written to each table, and the trace of remote calls and sleeps. -/
structure GenResult where
  view : View
  promptRows : List PromptRow
  responseRows : List ResponseRow
  events : List Event
  deriving DecidableEq

/-- The message of the `RuntimeError` raised when the attempt budget is
exhausted: `f"Failed to generate response summary after {self.retries}
attempts."`.  Note `str()` of that error is exactly this text — the chained
cause (`from e`) is not part of it. -/
def runtimeMsg (retries : Int) : String :=
  s!"Failed to generate response summary after {retries} attempts."

/-- The `while attempt < self.retries` loop of `generate_response`.
`attempt` is the source's counter (starts at 0, incremented only on a
failing attempt); the extra `fuel` argument is only a structural-recursion
bound and is instantiated with `retries.toNat` (an over-approximation of the
remaining iterations, since `attempt` grows by 1 per iteration; when `fuel`
runs out, `attempt ≥ retries` holds and the loop-condition-false result is
returned).  Returns the loop outcome — `.ok (some s)` when an attempt
succeeded and broke out, `.ok none` when the condition was false at entry
(`retries ≤ 0`), `.error msg` for the `RuntimeError` on exhaustion — paired
with the event trace. -/
def loopAux (remote : Nat → Except String RemoteSuccess) (retries delay : Int) :
    Nat → Nat → Except String (Option RemoteSuccess) × List Event
  | _attempt, 0 => (Except.ok none, [])
  | attempt, fuel + 1 =>
    if (attempt : Int) < retries then
      match remote attempt with
      | Except.ok s => (Except.ok (some s), [Event.call attempt])
      | Except.error _e =>
        if retries ≤ (attempt : Int) + 1 then
          (Except.error (runtimeMsg retries), [Event.call attempt])
        else
          let rest := loopAux remote retries delay (attempt + 1) fuel
          (rest.1, Event.call attempt :: Event.sleep delay :: rest.2)
    else (Except.ok none, [])

/-- The attempt loop as entered by `generate_response`: `attempt = 0`. -/
def attemptLoop (remote : Nat → Except String RemoteSuccess) (retries delay : Int) :
    Except String (Option RemoteSuccess) × List Event :=
  loopAux remote retries delay 0 retries.toNat

/-- The local `status` variable after the try/except: initialised to
`"failure"`, set to `"success"` after the loop completes normally, reset to
`"failure"` by the outer handler. -/
def loopStatus (lr : Except String (Option RemoteSuccess)) : String :=
  match lr with
  | Except.ok _ => "success"
  | Except.error _ => "failure"

/-- The captured success, if any (the locals `response_json_text`,
`content`, `refusal`, `finish_reason` are set together on a successful
attempt and otherwise keep their `None` initialisation). -/
def loopCapture (lr : Except String (Option RemoteSuccess)) : Option RemoteSuccess :=
  match lr with
  | Except.ok c => c
  | Except.error _ => none

/-- The local `error_message`: set by the outer handler to `str(e)`. -/
def loopError (lr : Except String (Option RemoteSuccess)) : Option String :=
  match lr with
  | Except.ok _ => none
  | Except.error m => some m

/-- The returned mapping, built from the locals. -/
def loopView (lr : Except String (Option RemoteSuccess)) : View :=
  { content := (loopCapture lr).bind (fun s => s.content)
    status := loopStatus lr
    finish_reason := (loopCapture lr).map (fun s => s.finish_reason)
    refusal := (loopCapture lr).bind (fun s => s.refusal) }

/-- The `responses` row inserted after the try/except (the source never
assigns `prompt_tokens` / `response_tokens`, so they are always null). -/
def loopRow (pid : Nat) (lr : Except String (Option RemoteSuccess)) : ResponseRow :=
  { prompt_id := pid
    response := (loopCapture lr).map (fun s => s.payload)
    error := loopError lr
    status := loopStatus lr
    refusal := (loopCapture lr).bind (fun s => s.refusal)
    finish_reason := (loopCapture lr).map (fun s => s.finish_reason)
    prompt_tokens := none
    response_tokens := none }

/-- `LLMManager.generate_response(prompt, model, system_message, store)`.

Control flow of the source: the outer `try` covers the prompt insert and the
attempt loop, and its `except` swallows any exception into
`error_message`/`status = "failure"`; the response insert
(`if store and prompt_id is not None`) happens *after* the try/except, so a
storage fault there propagates to the caller (`Except.error`); finally the
view is returned. -/
def generate_response (env : Env) (mgr : LLMManager) (stg : Storage)
    (remote : Option String → Nat → Except String RemoteSuccess)
    (prompt : String) (model : String) (system_message : String) (store : Bool) :
    Except String GenResult :=
  let ins : Except String (Option Nat) :=
    if store then
      match stg.promptInsert with
      | Except.ok rowid => Except.ok (some rowid)
      | Except.error e => Except.error e
    else Except.ok none
  match ins with
  | Except.error _e =>
    -- prompt insert faulted inside the try: caught by the outer except,
    -- loop never runs, `prompt_id is None` so no response row, view returned
    Except.ok
      { view := { content := none, status := "failure", finish_reason := none, refusal := none }
        promptRows := []
        responseRows := []
        events := [] }
  | Except.ok prompt_id =>
    -- client = openai.OpenAI(api_key=OPENAI_API_KEY): built from the
    -- module-level environment credential, not self.api_key
    let lr := attemptLoop (remote env.openai_api_key) mgr.retries mgr.retry_delay_seconds
    match store, prompt_id with
    | true, some pid =>
      match stg.responseInsert with
      | Except.error f => Except.error f
      | Except.ok _ =>
        Except.ok
          { view := loopView lr.1
            promptRows := [{ prompt := prompt, system_message := system_message, model := model }]
            responseRows := [loopRow pid lr.1]
            events := lr.2 }
    | _, _ =>
      Except.ok
        { view := loopView lr.1
          promptRows := if store then [{ prompt := prompt, system_message := system_message, model := model }] else []
          responseRows := []
          events := lr.2 }

/-! ### Schema manager: `create_tables` / `validate_tables` -/

/-- Expected `prompts` columns of `validate_tables`. -/
def expected_prompts_columns : List (String × String) :=
  [("id", "INTEGER"), ("prompt", "TEXT"), ("system_message", "TEXT"), ("model", "TEXT")]

/-- Expected `responses` columns of `validate_tables`. -/
def expected_responses_columns : List (String × String) :=
  [("id", "INTEGER"), ("prompt_id", "INTEGER"), ("response", "TEXT"), ("error", "TEXT"),
   ("status", "TEXT"), ("refusal", "TEXT"), ("finish_reason", "TEXT"),
   ("timestamp", "DATETIME"), ("prompt_tokens", "INTEGER"), ("response_tokens", "INTEGER")]

/-- Python's `str.upper()` (per-character upper-casing; the ASCII mapping is
all that the declared SQLite type names involved exercise). -/
def upperStr (s : String) : String :=
  String.mk (s.data.map Char.toUpper)

/-- Python's `str.lower()`. -/
def lowerStr (s : String) : String :=
  String.mk (s.data.map Char.toLower)

/-- The inner scan: `column[1] == expected_column[0] and column[2].upper()
== expected_column[1]` over the `PRAGMA table_info` rows (modelled as
(name, declared-type) pairs). -/
def columnFound (actuals : List (String × String)) (expected : String × String) : Bool :=
  actuals.any (fun c => c.1 == expected.1 && upperStr c.2 == expected.2)

/-- `f"Prompts table schema does not match expected schema. Missing column:
{expected_column[0]} {expected_column[1]}"`. -/
def prompts_missing_msg (c : String × String) : String :=
  let n := c.1
  let t := c.2
  s!"Prompts table schema does not match expected schema. Missing column: {n} {t}"

/-- `f"Responses table schema does not match expected schema. Missing
column: {expected_column[0]} {expected_column[1]}"`. -/
def responses_missing_msg (c : String × String) : String :=
  let n := c.1
  let t := c.2
  s!"Responses table schema does not match expected schema. Missing column: {n} {t}"

/-- One `for expected_column in expected:` loop of `validate_tables`:
raises (first) on the first expected pair with no matching actual column. -/
def validateColumnList (mkMsg : String × String → String)
    (actuals : List (String × String)) : List (String × String) → Except String Unit
  | [] => Except.ok ()
  | e :: rest =>
    if columnFound actuals e then validateColumnList mkMsg actuals rest
    else Except.error (mkMsg e)

/-- `validate_tables`: checks the `prompts` expectations, then the
`responses` expectations, raising on the first unmet one. -/
def validate_tables (prompts_columns responses_columns : List (String × String)) :
    Except String Unit :=
  match validateColumnList prompts_missing_msg prompts_columns expected_prompts_columns with
  | Except.error e => Except.error e
  | Except.ok _ =>
    validateColumnList responses_missing_msg responses_columns expected_responses_columns

/-- The first expected (name, type) pair that no actual column matches —
specification-side description of which column `validate_tables` names. -/
def firstUnmatched (actuals expecteds : List (String × String)) : Option (String × String) :=
  expecteds.find? (fun e => !(columnFound actuals e))

/-- Columns of the `prompts` table as `create_tables` declares them (the
`PRAGMA table_info` declared type of `id INTEGER PRIMARY KEY AUTOINCREMENT`
is `INTEGER`). -/
def fresh_prompts_columns : List (String × String) :=
  [("id", "INTEGER"), ("prompt", "TEXT"), ("system_message", "TEXT"), ("model", "TEXT")]

/-- Columns of the `responses` table as `create_tables` declares them. -/
def fresh_responses_columns : List (String × String) :=
  [("id", "INTEGER"), ("prompt_id", "INTEGER"), ("response", "TEXT"), ("error", "TEXT"),
   ("status", "TEXT"), ("refusal", "TEXT"), ("finish_reason", "TEXT"),
   ("timestamp", "DATETIME"), ("prompt_tokens", "INTEGER"), ("response_tokens", "INTEGER")]

/-- Declared types rewritten to lower case (for exercising the
case-insensitive type comparison). -/
def lowerTypes (cols : List (String × String)) : List (String × String) :=
  cols.map (fun c => (c.1, lowerStr c.2))

/-! ### Concrete fixtures -/

/-- An environment with a set credential and the default configuration
(`LLM_RETRIES = 3`, `LLM_RETRY_DELAY_SECONDS = 2`). -/
def envA : Env := { openai_api_key := some "env-key", llm_retries := 3, llm_retry_delay_seconds := 2 }

/-- A manager built by the constructor from `envA`. -/
def mgrA : LLMManager := mkManager envA "test.db" "ctor-key"

/-- A manager whose configured retry count is 0. -/
def mgrZero : LLMManager := { mgrA with retries := 0 }

/-- A manager whose configured retry count is 1. -/
def mgrOne : LLMManager := { mgrA with retries := 1 }

/-- Storage where both inserts succeed; the prompt row gets id 1. -/
def stgOk1 : Storage := { promptInsert := Except.ok 1, responseInsert := Except.ok () }

/-- Storage where the prompt insert faults. -/
def stgPF : Storage := { promptInsert := Except.error "disk full", responseInsert := Except.ok () }

/-- Storage where the response insert faults. -/
def stgRF : Storage := { promptInsert := Except.ok 1, responseInsert := Except.error "responses table locked" }

/-- A concrete structured remote success. -/
def sA : RemoteSuccess :=
  { payload := "rawjson", content := some "hi", refusal := none, finish_reason := "stop" }

/-- A remote capability that succeeds on every attempt. -/
def remoteOkF : Option String → Nat → Except String RemoteSuccess :=
  fun _key _k => Except.ok sA

/-- A remote capability that fails on every attempt. -/
def remoteFailF : Option String → Nat → Except String RemoteSuccess :=
  fun _key _k => Except.error "boom"

/-- A remote capability that fails on attempts 0 and 1 and succeeds on
attempt 2 (fails exactly `retries - 1 = 2` times under `envA`). -/
def remoteFlakyF : Option String → Nat → Except String RemoteSuccess :=
  fun _key k => if k + 1 < 3 then Except.error "transient" else Except.ok sA

/-! ### Trace vocabulary and loop lemmas -/

/-- Number of remote invocations in a trace. -/
def callCount : List Event → Nat
  | [] => 0
  | Event.call _ :: es => callCount es + 1
  | Event.sleep _ :: es => callCount es

/-- Number of sleeps in a trace. -/
def sleepCount : List Event → Nat
  | [] => 0
  | Event.call _ :: es => sleepCount es
  | Event.sleep _ :: es => sleepCount es + 1

/-- The trace `[call start, sleep delay, call (start+1), …, call (start+n-1)]`
of `n` invocations starting at attempt `start`, with a sleep between
consecutive invocations and none after the last. -/
def exhaustTraceFrom (delay : Int) : Nat → Nat → List Event
  | _start, 0 => []
  | start, fuel + 1 =>
    if fuel = 0 then [Event.call start]
    else Event.call start :: Event.sleep delay :: exhaustTraceFrom delay (start + 1) fuel

lemma callCount_exhaustTraceFrom (delay : Int) :
    ∀ n start, callCount (exhaustTraceFrom delay start n) = n := by
  intro n
  induction n with
  | zero => intro start; rfl
  | succ m ih =>
    intro start
    by_cases hm : m = 0
    · subst hm; rfl
    · rw [exhaustTraceFrom, if_neg hm]
      show callCount (exhaustTraceFrom delay (start + 1) m) + 1 = m + 1
      rw [ih (start + 1)]

lemma sleepCount_exhaustTraceFrom (delay : Int) :
    ∀ n start, sleepCount (exhaustTraceFrom delay start n) = n - 1 := by
  intro n
  induction n with
  | zero => intro start; rfl
  | succ m ih =>
    intro start
    by_cases hm : m = 0
    · subst hm; rfl
    · rw [exhaustTraceFrom, if_neg hm]
      show sleepCount (exhaustTraceFrom delay (start + 1) m) + 1 = m + 1 - 1
      rw [ih (start + 1)]
      omega

lemma sleep_mem_exhaustTraceFrom (delay : Int) :
    ∀ n start d, Event.sleep d ∈ exhaustTraceFrom delay start n → d = delay := by
  intro n
  induction n with
  | zero => intro start d h; simp [exhaustTraceFrom] at h
  | succ m ih =>
    intro start d h
    by_cases hm : m = 0
    · subst hm; simp [exhaustTraceFrom] at h
    · rw [exhaustTraceFrom, if_neg hm] at h
      rcases List.mem_cons.mp h with h1 | h2
      · cases h1
      · rcases List.mem_cons.mp h2 with h3 | h4
        · cases h3; rfl
        · exact ih (start + 1) d h4

/-- If every attempt from `attempt` on fails and exactly `fuel` iterations
remain (`attempt + fuel = retries`, at least one), the loop ends in the
exhaustion `RuntimeError` with the alternating call/sleep trace. -/
lemma loopAux_allFail (remote : Nat → Except String RemoteSuccess) (retries delay : Int)
    (hfail : ∀ k, ∃ e, remote k = Except.error e) :
    ∀ (fuel attempt : Nat), (attempt : Int) + (fuel : Int) = retries → 1 ≤ fuel →
      loopAux remote retries delay attempt fuel =
        (Except.error (runtimeMsg retries), exhaustTraceFrom delay attempt fuel) := by
  intro fuel
  induction fuel with
  | zero => intro attempt _ h1; omega
  | succ m ih =>
    intro attempt hsum _
    obtain ⟨e, he⟩ := hfail attempt
    rw [loopAux, if_pos (by omega : (attempt : Int) < retries), he]
    by_cases hm : m = 0
    · subst hm
      rw [if_pos (by omega : retries ≤ (attempt : Int) + 1)]
      rw [exhaustTraceFrom, if_pos rfl]
    · rw [if_neg (by omega : ¬ retries ≤ (attempt : Int) + 1)]
      rw [exhaustTraceFrom, if_neg hm]
      show (let rest := loopAux remote retries delay (attempt + 1) m
            (rest.1, Event.call attempt :: Event.sleep delay :: rest.2)) = _
      rw [ih (attempt + 1) (by omega) (by omega)]

/-- If the attempts `attempt, …, attempt + n - 1` fail, attempt
`attempt + n` succeeds with `s`, and `attempt + n` is within the budget,
the loop breaks with `s` after exactly `n + 1` invocations. -/
lemma loopAux_failThenOk (remote : Nat → Except String RemoteSuccess) (retries delay : Int)
    (s : RemoteSuccess) :
    ∀ (n fuel attempt : Nat), (attempt : Int) + (fuel : Int) = retries →
      ((attempt + n : Nat) : Int) < retries →
      (∀ k, attempt ≤ k → k < attempt + n → ∃ e, remote k = Except.error e) →
      remote (attempt + n) = Except.ok s →
      loopAux remote retries delay attempt fuel =
        (Except.ok (some s), exhaustTraceFrom delay attempt (n + 1)) := by
  intro n
  induction n with
  | zero =>
    intro fuel attempt hsum hlt _hfail hok
    have hfuel : ∃ m, fuel = m + 1 := by
      rcases fuel with _ | m
      · omega
      · exact ⟨m, rfl⟩
    obtain ⟨m, rfl⟩ := hfuel
    rw [loopAux, if_pos (by omega : (attempt : Int) < retries)]
    rw [show attempt + 0 = attempt from rfl] at hok
    rw [hok]
    rw [exhaustTraceFrom, if_pos rfl]
  | succ j ih =>
    intro fuel attempt hsum hlt hfail hok
    have hfuel : ∃ m, fuel = m + 1 := by
      rcases fuel with _ | m
      · omega
      · exact ⟨m, rfl⟩
    obtain ⟨m, rfl⟩ := hfuel
    obtain ⟨e, he⟩ := hfail attempt (Nat.le_refl _) (by omega)
    rw [loopAux, if_pos (by omega : (attempt : Int) < retries), he]
    rw [if_neg (by push_cast at hlt ⊢; omega : ¬ retries ≤ (attempt : Int) + 1)]
    show (let rest := loopAux remote retries delay (attempt + 1) m
          (rest.1, Event.call attempt :: Event.sleep delay :: rest.2)) = _
    rw [ih m (attempt + 1) (by omega) (by push_cast at hlt ⊢; omega)
        (fun k hk1 hk2 => hfail k (by omega) (by omega))
        (by rw [show attempt + 1 + j = attempt + (j + 1) from by omega]; exact hok)]
    rw [show exhaustTraceFrom delay attempt (j + 1 + 1) =
          Event.call attempt :: Event.sleep delay :: exhaustTraceFrom delay (attempt + 1) (j + 1) from by
        rw [exhaustTraceFrom, if_neg (by omega)]]

/-- Within the budget (`attempt < retries` and a correct fuel), the loop
never ends with the condition-false outcome `.ok none`. -/
lemma loopAux_fst_ne_okNone (remote : Nat → Except String RemoteSuccess) (retries delay : Int) :
    ∀ (fuel attempt : Nat), (attempt : Int) + (fuel : Int) = retries → (attempt : Int) < retries →
      (loopAux remote retries delay attempt fuel).1 ≠ Except.ok none := by
  intro fuel
  induction fuel with
  | zero => intro attempt h1 h2; omega
  | succ m ih =>
    intro attempt hsum hlt
    rw [loopAux, if_pos hlt]
    cases he : remote attempt with
    | ok s => simp
    | error e =>
      by_cases hle : retries ≤ (attempt : Int) + 1
      · rw [if_pos hle]; simp
      · rw [if_neg hle]
        show (loopAux remote retries delay (attempt + 1) m).1 ≠ Except.ok none
        exact ih (attempt + 1) (by omega) (by omega)

/-- With a configured retry count of at most 0, the loop condition is false
at entry: no invocation, empty trace, vacuous `.ok none` outcome. -/
lemma attemptLoop_nonpos (remote : Nat → Except String RemoteSuccess) (retries delay : Int)
    (h : retries ≤ 0) :
    attemptLoop remote retries delay = (Except.ok none, []) := by
  unfold attemptLoop
  rw [show retries.toNat = 0 from by omega]
  rfl

/-- `attemptLoop` when every attempt fails (needs `1 ≤ retries`). -/
lemma attemptLoop_allFail (remote : Nat → Except String RemoteSuccess) (retries delay : Int)
    (hret : 1 ≤ retries) (hfail : ∀ k, ∃ e, remote k = Except.error e) :
    attemptLoop remote retries delay =
      (Except.error (runtimeMsg retries), exhaustTraceFrom delay 0 retries.toNat) := by
  unfold attemptLoop
  exact loopAux_allFail remote retries delay hfail retries.toNat 0 (by omega) (by omega)

/-- `attemptLoop` when the first `retries - 1` attempts fail and attempt
`retries - 1` succeeds. -/
lemma attemptLoop_failThenOk (remote : Nat → Except String RemoteSuccess) (retries delay : Int)
    (s : RemoteSuccess) (hret : 1 ≤ retries)
    (hfail : ∀ k, k + 1 < retries.toNat → ∃ e, remote k = Except.error e)
    (hok : remote (retries.toNat - 1) = Except.ok s) :
    attemptLoop remote retries delay =
      (Except.ok (some s), exhaustTraceFrom delay 0 retries.toNat) := by
  unfold attemptLoop
  have h := loopAux_failThenOk remote retries delay s (retries.toNat - 1) retries.toNat 0
    (by omega) (by omega) (fun k hk1 hk2 => hfail k (by omega))
    (by rw [show 0 + (retries.toNat - 1) = retries.toNat - 1 from by omega]; exact hok)
  rw [h, show retries.toNat - 1 + 1 = retries.toNat from by omega]

/-- With a positive budget the loop result is a captured success or the
exhaustion error — never the vacuous `.ok none`. -/
lemma attemptLoop_fst_cases (remote : Nat → Except String RemoteSuccess) (retries delay : Int)
    (hret : 1 ≤ retries) :
    (∃ s, (attemptLoop remote retries delay).1 = Except.ok (some s)) ∨
      (∃ msg, (attemptLoop remote retries delay).1 = Except.error msg) := by
  have hne : (attemptLoop remote retries delay).1 ≠ Except.ok none := by
    unfold attemptLoop
    exact loopAux_fst_ne_okNone remote retries delay retries.toNat 0 (by omega) (by omega)
  cases hv : (attemptLoop remote retries delay).1 with
  | ok c =>
    cases c with
    | none => exact absurd hv hne
    | some s => exact Or.inl ⟨s, rfl⟩
  | error msg => exact Or.inr ⟨msg, rfl⟩

/-! ### Unfolding lemmas for the four storage/store shapes of
`generate_response` -/

lemma str_failure_ne_success : ("failure" : String) ≠ "success" := by decide

lemma str_success_ne_failure : ("success" : String) ≠ "failure" := by decide

/-- `generate_response` with `store = False`: no insert is attempted, the
loop runs, no rows are written, the view is built from the loop outcome. -/
lemma gen_store_false (env : Env) (mgr : LLMManager) (stg : Storage)
    (remote : Option String → Nat → Except String RemoteSuccess) (p m sm : String) :
    generate_response env mgr stg remote p m sm false =
      Except.ok
        { view := loopView (attemptLoop (remote env.openai_api_key) mgr.retries mgr.retry_delay_seconds).1
          promptRows := []
          responseRows := []
          events := (attemptLoop (remote env.openai_api_key) mgr.retries mgr.retry_delay_seconds).2 } := rfl

/-- `generate_response` with `store = True` and a faulting prompt insert:
the fault is swallowed by the outer handler before any remote call;
`prompt_id` stays `None`, so no response row; the failure view is
returned. -/
lemma gen_prompt_fault (env : Env) (mgr : LLMManager)
    (remote : Option String → Nat → Except String RemoteSuccess) (p m sm : String)
    (e : String) (ri : Except String Unit) :
    generate_response env mgr ⟨Except.error e, ri⟩ remote p m sm true =
      Except.ok
        { view := { content := none, status := "failure", finish_reason := none, refusal := none }
          promptRows := []
          responseRows := []
          events := [] } := rfl

/-- `generate_response` with `store = True` and fault-free storage: one
prompt row, the loop runs, one response row. -/
lemma gen_store_true (env : Env) (mgr : LLMManager)
    (remote : Option String → Nat → Except String RemoteSuccess) (p m sm : String) (pid : Nat) :
    generate_response env mgr ⟨Except.ok pid, Except.ok ()⟩ remote p m sm true =
      Except.ok
        { view := loopView (attemptLoop (remote env.openai_api_key) mgr.retries mgr.retry_delay_seconds).1
          promptRows := [{ prompt := p, system_message := sm, model := m }]
          responseRows := [loopRow pid (attemptLoop (remote env.openai_api_key) mgr.retries mgr.retry_delay_seconds).1]
          events := (attemptLoop (remote env.openai_api_key) mgr.retries mgr.retry_delay_seconds).2 } := rfl

/-- `generate_response` with `store = True`, a successful prompt insert and
a faulting response insert: the response insert happens after the
try/except, so the fault propagates to the caller. -/
lemma gen_response_fault (env : Env) (mgr : LLMManager)
    (remote : Option String → Nat → Except String RemoteSuccess) (p m sm : String)
    (pid : Nat) (f : String) :
    generate_response env mgr ⟨Except.ok pid, Except.error f⟩ remote p m sm true =
      Except.error f := rfl

/-! ### Claim C1 -/

/-- C1 counterexample: with `store = true` and a prompt insert that faults
(`"disk full"`), `generate_response` does NOT raise the fault — the prompt
insert sits inside the outer `try`, whose handler swallows the exception —
and instead returns a result view with `status = "failure"` (and writes no
record).  This refutes the claim that the fault is raised to the caller
instead of returning a result view. -/
theorem C1_counterexample :
    generate_response envA mgrA stgPF remoteOkF "p" "gpt-4o" "sys" true =
      Except.ok
        { view := { content := none, status := "failure", finish_reason := none, refusal := none }
          promptRows := []
          responseRows := []
          events := [] } := rfl

/-- C1 (amended): if the prompt-record insertion fails when `generate` is
called with `store = true`, the fault is swallowed by the surrounding
handler: `generate` returns (does not raise) a result view with
`status = "failure"` and absent content/finish_reason/refusal, no remote
attempt is made (empty event trace), and no prompt or response record is
written. -/
theorem C1_prompt_fault_swallowed (env : Env) (mgr : LLMManager) (stg : Storage)
    (remote : Option String → Nat → Except String RemoteSuccess) (p m sm e : String)
    (h : stg.promptInsert = Except.error e) :
    generate_response env mgr stg remote p m sm true =
      Except.ok
        { view := { content := none, status := "failure", finish_reason := none, refusal := none }
          promptRows := []
          responseRows := []
          events := [] } := by
  have hstg : stg = ⟨Except.error e, stg.responseInsert⟩ := by rw [← h]
  rw [hstg]
  exact gen_prompt_fault env mgr remote p m sm e stg.responseInsert

/-- C1 witness: the amended theorem applied at a concrete faulting store. -/
theorem C1_prompt_fault_swallowed_witness :
    stgPF.promptInsert = Except.error "disk full" ∧
    generate_response envA mgrA stgPF remoteOkF "p" "gpt-4o" "sys" true =
      Except.ok
        { view := { content := none, status := "failure", finish_reason := none, refusal := none }
          promptRows := []
          responseRows := []
          events := [] } :=
  ⟨rfl, C1_prompt_fault_swallowed envA mgrA stgPF remoteOkF "p" "gpt-4o" "sys" "disk full" rfl⟩

/-! ### Claim C3 -/

/-- C3 counterexample: a storage fault on the *response* insert (which the
source performs after the try/except) propagates out of
`generate_response` as an exception, so `generate` does not return a result
view for every input.  Concretely: the remote call succeeds, but the
response insert faults with `"responses table locked"`, and that fault is
raised to the caller. -/
theorem C3_counterexample :
    generate_response envA mgrA stgRF remoteOkF "p" "gpt-4o" "sys" true =
      Except.error "responses table locked" := rfl

/-- C3 (amended): provided the response-record insertion itself does not
fault, `generate` returns a result view to the caller rather than raising;
the view's `status` is `"success"` or `"failure"` (the caller observes
failure only through it), and whenever a stored row reports failure its
error message is present (errors of the attempt loop are captured into the
stored error message). -/
theorem C3_view_not_exception (env : Env) (mgr : LLMManager) (stg : Storage)
    (remote : Option String → Nat → Except String RemoteSuccess) (p m sm : String)
    (store : Bool) (hri : stg.responseInsert = Except.ok ()) :
    (generate_response env mgr stg remote p m sm store).isOk = true
    ∧ ∀ res, generate_response env mgr stg remote p m sm store = Except.ok res →
        ((res.view.status = "success" ∨ res.view.status = "failure")
         ∧ ∀ row ∈ res.responseRows, row.status = "failure" → row.error.isSome = true) := by
  have hstg : stg = ⟨stg.promptInsert, Except.ok ()⟩ := by rw [← hri]
  cases store with
  | false =>
    rw [gen_store_false]
    refine ⟨rfl, ?_⟩
    intro res hres
    rw [Except.ok.injEq] at hres
    subst hres
    refine ⟨?_, ?_⟩
    · cases (attemptLoop (remote env.openai_api_key) mgr.retries mgr.retry_delay_seconds).1 with
      | ok c => exact Or.inl rfl
      | error msg => exact Or.inr rfl
    · intro row hrow
      simp at hrow
  | true =>
    rw [hstg]
    cases hpi : stg.promptInsert with
    | error e =>
      rw [gen_prompt_fault]
      refine ⟨rfl, ?_⟩
      intro res hres
      rw [Except.ok.injEq] at hres
      subst hres
      refine ⟨Or.inr rfl, ?_⟩
      intro row hrow
      simp at hrow
    | ok pid =>
      rw [gen_store_true]
      refine ⟨rfl, ?_⟩
      intro res hres
      rw [Except.ok.injEq] at hres
      subst hres
      cases hL : (attemptLoop (remote env.openai_api_key) mgr.retries mgr.retry_delay_seconds).1 with
      | ok c =>
        refine ⟨Or.inl (by simp [loopView, loopStatus]), ?_⟩
        intro row hrow hfailrow
        rw [List.mem_singleton] at hrow
        subst hrow
        exact absurd hfailrow (by simp [loopRow, loopStatus])
      | error msg =>
        refine ⟨Or.inr (by simp [loopView, loopStatus]), ?_⟩
        intro row hrow _hfailrow
        rw [List.mem_singleton] at hrow
        subst hrow
        simp [loopRow, loopError]

/-- C3 witness: the amended theorem applied at a concrete input whose loop
exhausts the budget (every attempt fails). -/
theorem C3_view_not_exception_witness :
    stgOk1.responseInsert = Except.ok () ∧
    ((generate_response envA mgrA stgOk1 remoteFailF "p" "gpt-4o" "sys" true).isOk = true
     ∧ ∀ res, generate_response envA mgrA stgOk1 remoteFailF "p" "gpt-4o" "sys" true = Except.ok res →
         ((res.view.status = "success" ∨ res.view.status = "failure")
          ∧ ∀ row ∈ res.responseRows, row.status = "failure" → row.error.isSome = true)) :=
  ⟨rfl, C3_view_not_exception envA mgrA stgOk1 remoteFailF "p" "gpt-4o" "sys" true rfl⟩

/-! ### Claim C4 -/

/-- C4 counterexample: configured retry count 1 and a remote capability
whose only (final) attempt fails with message `"boom"`.  What is captured
into the response record's `error` field is the message of the wrapping
`RuntimeError` — `"Failed to generate response summary after 1 attempts."`
— not the message of the error that triggered the final attempt's failure
(`"boom"` is only the chained cause, and `str()` of the `RuntimeError` does
not include it).  This refutes the claim that the triggering error's
message is the one captured. -/
theorem C4_counterexample :
    generate_response envA mgrOne stgOk1 remoteFailF "p" "gpt-4o" "sys" true =
      Except.ok
        { view := { content := none, status := "failure", finish_reason := none, refusal := none }
          promptRows := [{ prompt := "p", system_message := "sys", model := "gpt-4o" }]
          responseRows := [{ prompt_id := 1, response := none,
                             error := some "Failed to generate response summary after 1 attempts.",
                             status := "failure", refusal := none, finish_reason := none,
                             prompt_tokens := none, response_tokens := none }]
          events := [Event.call 0] }
    ∧ ("Failed to generate response summary after 1 attempts." : String) ≠ "boom" :=
  ⟨rfl, by decide⟩

/-- C4 (amended): when every attempt of the retry loop fails, the final
attempt terminates the loop and what is captured into the response record's
error field is the message of the wrapping RuntimeError, `runtimeMsg
retries` = "Failed to generate response summary after N attempts." (the
triggering error is chained as its cause but its own message is not
stored); the error is not raised as a fault to the caller — `generate`
returns the failure view. -/
theorem C4_exhaustion_wrapper_message (env : Env) (mgr : LLMManager) (stg : Storage)
    (remote : Option String → Nat → Except String RemoteSuccess) (p m sm : String) (pid : Nat)
    (hret : 1 ≤ mgr.retries)
    (hpi : stg.promptInsert = Except.ok pid) (hri : stg.responseInsert = Except.ok ())
    (hfail : ∀ k, ∃ e, remote env.openai_api_key k = Except.error e) :
    generate_response env mgr stg remote p m sm true =
      Except.ok
        { view := { content := none, status := "failure", finish_reason := none, refusal := none }
          promptRows := [{ prompt := p, system_message := sm, model := m }]
          responseRows := [{ prompt_id := pid, response := none,
                             error := some (runtimeMsg mgr.retries),
                             status := "failure", refusal := none, finish_reason := none,
                             prompt_tokens := none, response_tokens := none }]
          events := exhaustTraceFrom mgr.retry_delay_seconds 0 mgr.retries.toNat } := by
  have hstg : stg = ⟨Except.ok pid, Except.ok ()⟩ := by rw [← hpi, ← hri]
  rw [hstg, gen_store_true,
    attemptLoop_allFail (remote env.openai_api_key) mgr.retries mgr.retry_delay_seconds hret hfail]
  simp [loopView, loopRow, loopStatus, loopCapture, loopError]

/-- C4 witness: the amended theorem applied at the default configuration
(retries 3) with an always-failing remote capability. -/
theorem C4_exhaustion_wrapper_message_witness :
    (1 : Int) ≤ mgrA.retries ∧
    generate_response envA mgrA stgOk1 remoteFailF "p" "gpt-4o" "sys" true =
      Except.ok
        { view := { content := none, status := "failure", finish_reason := none, refusal := none }
          promptRows := [{ prompt := "p", system_message := "sys", model := "gpt-4o" }]
          responseRows := [{ prompt_id := 1, response := none,
                             error := some (runtimeMsg mgrA.retries),
                             status := "failure", refusal := none, finish_reason := none,
                             prompt_tokens := none, response_tokens := none }]
          events := exhaustTraceFrom mgrA.retry_delay_seconds 0 mgrA.retries.toNat } :=
  ⟨by decide,
   C4_exhaustion_wrapper_message envA mgrA stgOk1 remoteFailF "p" "gpt-4o" "sys" 1
     (by decide) rfl rfl (fun _k => ⟨"boom", rfl⟩)⟩

/-! ### Claim C10 -/

/-- C10: the result of `generate_response` is independent of the credential
passed to the constructor.  Two managers constructed (via `mkManager`,
mirroring `__init__`) with different `api_key` arguments but the same
process environment produce identical results — view, records and trace —
for every storage behaviour, remote behaviour and input, because the remote
client is built from the module-level environment credential
(`openai.OpenAI(api_key=OPENAI_API_KEY)`), not from `self.api_key`. -/
theorem C10_credential_independence (env : Env) (db k1 k2 : String) (stg : Storage)
    (remote : Option String → Nat → Except String RemoteSuccess) (p m sm : String)
    (store : Bool) :
    generate_response env (mkManager env db k1) stg remote p m sm store =
      generate_response env (mkManager env db k2) stg remote p m sm store := rfl

/-! ### Claim C5 -/

/-- C5: `generate(p, store=true)` against a remote capability failing on
every attempt, with fault-free storage and a positive retry budget: the
event trace is exactly `retries` invocations with one
`retry_delay_seconds` sleep between consecutive invocations and none after
the last; exactly one response record is created, with `status =
"failure"` and a present error message; the returned view's content is
absent. -/
theorem C5_always_fails (env : Env) (mgr : LLMManager) (stg : Storage)
    (remote : Option String → Nat → Except String RemoteSuccess) (p m sm : String) (pid : Nat)
    (hret : 1 ≤ mgr.retries)
    (hpi : stg.promptInsert = Except.ok pid) (hri : stg.responseInsert = Except.ok ())
    (hfail : ∀ k, ∃ e, remote env.openai_api_key k = Except.error e) :
    generate_response env mgr stg remote p m sm true =
      Except.ok
        { view := { content := none, status := "failure", finish_reason := none, refusal := none }
          promptRows := [{ prompt := p, system_message := sm, model := m }]
          responseRows := [{ prompt_id := pid, response := none,
                             error := some (runtimeMsg mgr.retries),
                             status := "failure", refusal := none, finish_reason := none,
                             prompt_tokens := none, response_tokens := none }]
          events := exhaustTraceFrom mgr.retry_delay_seconds 0 mgr.retries.toNat }
    ∧ callCount (exhaustTraceFrom mgr.retry_delay_seconds 0 mgr.retries.toNat) = mgr.retries.toNat
    ∧ sleepCount (exhaustTraceFrom mgr.retry_delay_seconds 0 mgr.retries.toNat) = mgr.retries.toNat - 1
    ∧ ∀ d, Event.sleep d ∈ exhaustTraceFrom mgr.retry_delay_seconds 0 mgr.retries.toNat →
        d = mgr.retry_delay_seconds := by
  have hstg : stg = ⟨Except.ok pid, Except.ok ()⟩ := by rw [← hpi, ← hri]
  refine ⟨?_, callCount_exhaustTraceFrom _ _ _, sleepCount_exhaustTraceFrom _ _ _,
    fun d => sleep_mem_exhaustTraceFrom _ _ _ d⟩
  rw [hstg, gen_store_true,
    attemptLoop_allFail (remote env.openai_api_key) mgr.retries mgr.retry_delay_seconds hret hfail]
  simp [loopView, loopRow, loopStatus, loopCapture, loopError]

/-- C5 witness: default configuration (retries 3, delay 2), always-failing
remote — three calls with two sleeps of 2 between them. -/
theorem C5_always_fails_witness :
    (1 : Int) ≤ mgrA.retries ∧
    exhaustTraceFrom mgrA.retry_delay_seconds 0 mgrA.retries.toNat =
      [Event.call 0, Event.sleep 2, Event.call 1, Event.sleep 2, Event.call 2] ∧
    (generate_response envA mgrA stgOk1 remoteFailF "p" "gpt-4o" "sys" true =
      Except.ok
        { view := { content := none, status := "failure", finish_reason := none, refusal := none }
          promptRows := [{ prompt := "p", system_message := "sys", model := "gpt-4o" }]
          responseRows := [{ prompt_id := 1, response := none,
                             error := some (runtimeMsg mgrA.retries),
                             status := "failure", refusal := none, finish_reason := none,
                             prompt_tokens := none, response_tokens := none }]
          events := exhaustTraceFrom mgrA.retry_delay_seconds 0 mgrA.retries.toNat }
    ∧ callCount (exhaustTraceFrom mgrA.retry_delay_seconds 0 mgrA.retries.toNat) = mgrA.retries.toNat
    ∧ sleepCount (exhaustTraceFrom mgrA.retry_delay_seconds 0 mgrA.retries.toNat) = mgrA.retries.toNat - 1
    ∧ ∀ d, Event.sleep d ∈ exhaustTraceFrom mgrA.retry_delay_seconds 0 mgrA.retries.toNat →
        d = mgrA.retry_delay_seconds) :=
  ⟨by decide, rfl,
   C5_always_fails envA mgrA stgOk1 remoteFailF "p" "gpt-4o" "sys" 1
     (by decide) rfl rfl (fun _k => ⟨"boom", rfl⟩)⟩

/-! ### Claim C6 -/

/-- C6: `generate(p, store=true)` against a remote capability that fails on
attempts `0 … retries-2` and succeeds on attempt `retries-1`: the loop
exits on that success — the trace is exactly `retries` invocations ending
with the successful call (no further attempts, no trailing sleep) — and
exactly one response record is created, with `status = "success"`: a
last-attempt success counts as success, not exhaustion. -/
theorem C6_last_attempt_success (env : Env) (mgr : LLMManager) (stg : Storage)
    (remote : Option String → Nat → Except String RemoteSuccess) (p m sm : String) (pid : Nat)
    (s : RemoteSuccess)
    (hret : 1 ≤ mgr.retries)
    (hpi : stg.promptInsert = Except.ok pid) (hri : stg.responseInsert = Except.ok ())
    (hfail : ∀ k, k + 1 < mgr.retries.toNat → ∃ e, remote env.openai_api_key k = Except.error e)
    (hok : remote env.openai_api_key (mgr.retries.toNat - 1) = Except.ok s) :
    generate_response env mgr stg remote p m sm true =
      Except.ok
        { view := { content := s.content, status := "success",
                    finish_reason := some s.finish_reason, refusal := s.refusal }
          promptRows := [{ prompt := p, system_message := sm, model := m }]
          responseRows := [{ prompt_id := pid, response := some s.payload,
                             error := none, status := "success", refusal := s.refusal,
                             finish_reason := some s.finish_reason,
                             prompt_tokens := none, response_tokens := none }]
          events := exhaustTraceFrom mgr.retry_delay_seconds 0 mgr.retries.toNat }
    ∧ callCount (exhaustTraceFrom mgr.retry_delay_seconds 0 mgr.retries.toNat) = mgr.retries.toNat := by
  have hstg : stg = ⟨Except.ok pid, Except.ok ()⟩ := by rw [← hpi, ← hri]
  refine ⟨?_, callCount_exhaustTraceFrom _ _ _⟩
  rw [hstg, gen_store_true,
    attemptLoop_failThenOk (remote env.openai_api_key) mgr.retries mgr.retry_delay_seconds s
      hret hfail hok]
  simp [loopView, loopRow, loopStatus, loopCapture, loopError]

/-- C6 witness: retries 3 with a remote capability failing on attempts 0
and 1 and succeeding on attempt 2. -/
theorem C6_last_attempt_success_witness :
    (1 : Int) ≤ mgrA.retries ∧
    (generate_response envA mgrA stgOk1 remoteFlakyF "p" "gpt-4o" "sys" true =
      Except.ok
        { view := { content := sA.content, status := "success",
                    finish_reason := some sA.finish_reason, refusal := sA.refusal }
          promptRows := [{ prompt := "p", system_message := "sys", model := "gpt-4o" }]
          responseRows := [{ prompt_id := 1, response := some sA.payload,
                             error := none, status := "success", refusal := sA.refusal,
                             finish_reason := some sA.finish_reason,
                             prompt_tokens := none, response_tokens := none }]
          events := exhaustTraceFrom mgrA.retry_delay_seconds 0 mgrA.retries.toNat }
    ∧ callCount (exhaustTraceFrom mgrA.retry_delay_seconds 0 mgrA.retries.toNat) = mgrA.retries.toNat) :=
  ⟨by decide,
   C6_last_attempt_success envA mgrA stgOk1 remoteFlakyF "p" "gpt-4o" "sys" 1 sA
     (by decide) rfl rfl
     (fun k hk => ⟨"transient", by
        show (if k + 1 < 3 then Except.error "transient" else Except.ok sA) =
          Except.error ("transient" : String)
        rw [if_pos (show k + 1 < 3 from hk)]⟩)
     rfl⟩

/-! ### Claim C7 -/

/-- C7: `generate(p, store=false)` creates no prompt record and no response
record, regardless of the storage behaviour and of whether the remote
calls succeed or fail, and its returned view equals the view a stored call
(with fault-free storage) would report for the same environment, manager
and remote behaviour. -/
theorem C7_store_false_frame (env : Env) (mgr : LLMManager) (stg : Storage)
    (remote : Option String → Nat → Except String RemoteSuccess) (p m sm : String) (pid : Nat)
    (res1 res2 : GenResult)
    (h1 : generate_response env mgr stg remote p m sm false = Except.ok res1)
    (h2 : generate_response env mgr ⟨Except.ok pid, Except.ok ()⟩ remote p m sm true = Except.ok res2) :
    res1.promptRows = [] ∧ res1.responseRows = [] ∧ res1.view = res2.view := by
  rw [gen_store_false, Except.ok.injEq] at h1
  rw [gen_store_true, Except.ok.injEq] at h2
  subst h1
  subst h2
  exact ⟨rfl, rfl, rfl⟩

/-- C7 witness: a store=false call over storage whose prompt insert would
fault writes nothing and reports the same view (here a success with content
`"hi"`) as the stored call with working storage. -/
theorem C7_store_false_frame_witness :
    generate_response envA mgrA stgPF remoteOkF "p" "gpt-4o" "sys" false =
      Except.ok
        { view := { content := some "hi", status := "success",
                    finish_reason := some "stop", refusal := none }
          promptRows := [], responseRows := [], events := [Event.call 0] }
    ∧ generate_response envA mgrA ⟨Except.ok 1, Except.ok ()⟩ remoteOkF "p" "gpt-4o" "sys" true =
      Except.ok
        { view := { content := some "hi", status := "success",
                    finish_reason := some "stop", refusal := none }
          promptRows := [{ prompt := "p", system_message := "sys", model := "gpt-4o" }]
          responseRows := [{ prompt_id := 1, response := some "rawjson",
                             error := none, status := "success", refusal := none,
                             finish_reason := some "stop",
                             prompt_tokens := none, response_tokens := none }]
          events := [Event.call 0] }
    ∧ (GenResult.promptRows
         { view := { content := some "hi", status := "success",
                     finish_reason := some "stop", refusal := none }
           promptRows := [], responseRows := [], events := [Event.call 0] } = []
       ∧ GenResult.responseRows
         { view := { content := some "hi", status := "success",
                     finish_reason := some "stop", refusal := none }
           promptRows := [], responseRows := [], events := [Event.call 0] } = []
       ∧ GenResult.view
         { view := { content := some "hi", status := "success",
                     finish_reason := some "stop", refusal := none }
           promptRows := [], responseRows := [], events := [Event.call 0] } =
         GenResult.view
         { view := { content := some "hi", status := "success",
                     finish_reason := some "stop", refusal := none }
           promptRows := [{ prompt := "p", system_message := "sys", model := "gpt-4o" }]
           responseRows := [{ prompt_id := 1, response := some "rawjson",
                              error := none, status := "success", refusal := none,
                              finish_reason := some "stop",
                              prompt_tokens := none, response_tokens := none }]
           events := [Event.call 0] }) :=
  ⟨rfl, rfl,
   C7_store_false_frame envA mgrA stgPF remoteOkF "p" "gpt-4o" "sys" 1 _ _ rfl rfl⟩

/-! ### Claim C9 -/

/-- C9: with a configured retry count of zero or negative, the loop
condition is false at entry, so `generate` never invokes the remote
capability (empty event trace) yet completes the try block normally:
`status = "success"` with absent content, finish_reason, refusal; with
`store = true` (and fault-free storage) it additionally writes a response
record with `status = "success"` and a null payload. -/
theorem C9_nonpositive_retries (env : Env) (mgr : LLMManager) (stg : Storage)
    (remote : Option String → Nat → Except String RemoteSuccess) (p m sm : String) (pid : Nat)
    (store : Bool)
    (hret : mgr.retries ≤ 0)
    (hpi : stg.promptInsert = Except.ok pid) (hri : stg.responseInsert = Except.ok ()) :
    generate_response env mgr stg remote p m sm store =
      Except.ok
        { view := { content := none, status := "success", finish_reason := none, refusal := none }
          promptRows := if store then [{ prompt := p, system_message := sm, model := m }] else []
          responseRows := if store then
              [{ prompt_id := pid, response := none, error := none,
                 status := "success", refusal := none, finish_reason := none,
                 prompt_tokens := none, response_tokens := none }] else []
          events := [] } := by
  have hstg : stg = ⟨Except.ok pid, Except.ok ()⟩ := by rw [← hpi, ← hri]
  have hL := attemptLoop_nonpos (remote env.openai_api_key) mgr.retries mgr.retry_delay_seconds hret
  cases store with
  | false =>
    rw [gen_store_false, hL]
    simp [loopView, loopStatus, loopCapture]
  | true =>
    rw [hstg, gen_store_true, hL]
    simp [loopView, loopRow, loopStatus, loopCapture, loopError]

/-- C9 witness: retries 0, an always-failing remote never consulted, a
"success" record with null payload written. -/
theorem C9_nonpositive_retries_witness :
    mgrZero.retries ≤ 0 ∧
    generate_response envA mgrZero stgOk1 remoteFailF "p" "gpt-4o" "sys" true =
      Except.ok
        { view := { content := none, status := "success", finish_reason := none, refusal := none }
          promptRows := if true then [{ prompt := "p", system_message := "sys", model := "gpt-4o" }] else []
          responseRows := if true then
              [{ prompt_id := 1, response := none, error := none,
                 status := "success", refusal := none, finish_reason := none,
                 prompt_tokens := none, response_tokens := none }] else []
          events := [] } :=
  ⟨by decide,
   C9_nonpositive_retries envA mgrZero stgOk1 remoteFailF "p" "gpt-4o" "sys" 1 true
     (by decide) rfl rfl⟩

/-! ### Claim C2 -/

/-- C2 counterexample: with a configured retry count of 0 the attempt loop
is skipped entirely, yet the epilogue still runs `status = "success"`: a
response record is written with `status = "success"` and a NULL `response`
payload and NULL `finish_reason`, refuting the claimed iff between
`"success"` and a non-null payload/finish reason obtained from the remote
capability. -/
theorem C2_counterexample :
    generate_response envA mgrZero stgOk1 remoteFailF "p" "gpt-4o" "sys" true =
      Except.ok
        { view := { content := none, status := "success", finish_reason := none, refusal := none }
          promptRows := [{ prompt := "p", system_message := "sys", model := "gpt-4o" }]
          responseRows := [{ prompt_id := 1, response := none, error := none,
                             status := "success", refusal := none, finish_reason := none,
                             prompt_tokens := none, response_tokens := none }]
          events := [] } := rfl

/-- C2 (amended): provided at least one attempt is permitted
(`1 ≤ retries`), for every call of `generate` that returns (calls whose
response insert faults raise instead and write nothing): a response record
is written iff `store` was true and the prompt record was successfully
created; and status — in the returned view and in the record, which agree —
is `"success"` iff a non-null response payload and finish reason were
captured from the remote capability. -/
theorem C2_outcome_invariant (env : Env) (mgr : LLMManager) (stg : Storage)
    (remote : Option String → Nat → Except String RemoteSuccess) (p m sm : String)
    (store : Bool) (res : GenResult)
    (hret : 1 ≤ mgr.retries)
    (hgen : generate_response env mgr stg remote p m sm store = Except.ok res) :
    (¬ res.responseRows = [] ↔ (store = true ∧ ∃ pid, stg.promptInsert = Except.ok pid))
    ∧ (res.view.status = "success" ↔ res.view.finish_reason.isSome = true)
    ∧ ∀ row ∈ res.responseRows,
        row.status = res.view.status
        ∧ (row.status = "success" ↔ (row.response.isSome = true ∧ row.finish_reason.isSome = true)) := by
  have hcases := attemptLoop_fst_cases (remote env.openai_api_key) mgr.retries
    mgr.retry_delay_seconds hret
  cases store with
  | false =>
    rw [gen_store_false, Except.ok.injEq] at hgen
    subst hgen
    refine ⟨by simp, ?_, ?_⟩
    · rcases hcases with ⟨s, hs⟩ | ⟨msg, hm⟩
      · rw [hs]; simp [loopView, loopStatus, loopCapture]
      · rw [hm]; simp [loopView, loopStatus, loopCapture, str_failure_ne_success]
    · intro row hrow
      simp at hrow
  | true =>
    cases hpi : stg.promptInsert with
    | error e =>
      have hstg : stg = ⟨Except.error e, stg.responseInsert⟩ := by rw [← hpi]
      rw [hstg, gen_prompt_fault, Except.ok.injEq] at hgen
      subst hgen
      refine ⟨by simp [hpi], by simp [str_failure_ne_success], ?_⟩
      intro row hrow
      simp at hrow
    | ok pid =>
      cases hri : stg.responseInsert with
      | error f =>
        have hstg : stg = ⟨Except.ok pid, Except.error f⟩ := by rw [← hpi, ← hri]
        rw [hstg, gen_response_fault] at hgen
        exact absurd hgen (by simp)
      | ok u =>
        cases u
        have hstg : stg = ⟨Except.ok pid, Except.ok ()⟩ := by rw [← hpi, ← hri]
        rw [hstg, gen_store_true, Except.ok.injEq] at hgen
        subst hgen
        refine ⟨by simp [hpi], ?_, ?_⟩
        · rcases hcases with ⟨s, hs⟩ | ⟨msg, hm⟩
          · rw [hs]; simp [loopView, loopStatus, loopCapture]
          · rw [hm]; simp [loopView, loopStatus, loopCapture, str_failure_ne_success]
        · intro row hrow
          rw [List.mem_singleton] at hrow
          subst hrow
          rcases hcases with ⟨s, hs⟩ | ⟨msg, hm⟩
          · rw [hs]
            exact ⟨rfl, by simp [loopRow, loopView, loopStatus, loopCapture]⟩
          · rw [hm]
            exact ⟨rfl, by simp [loopRow, loopView, loopStatus, loopCapture,
              str_failure_ne_success]⟩

/-- C2 witness: the amended invariant applied at a stored call whose first
attempt succeeds. -/
theorem C2_outcome_invariant_witness :
    (1 : Int) ≤ mgrA.retries ∧
    generate_response envA mgrA stgOk1 remoteOkF "p" "gpt-4o" "sys" true =
      Except.ok
        { view := { content := some "hi", status := "success",
                    finish_reason := some "stop", refusal := none }
          promptRows := [{ prompt := "p", system_message := "sys", model := "gpt-4o" }]
          responseRows := [{ prompt_id := 1, response := some "rawjson",
                             error := none, status := "success", refusal := none,
                             finish_reason := some "stop",
                             prompt_tokens := none, response_tokens := none }]
          events := [Event.call 0] } ∧
    ((¬ GenResult.responseRows
        { view := { content := some "hi", status := "success",
                    finish_reason := some "stop", refusal := none }
          promptRows := [{ prompt := "p", system_message := "sys", model := "gpt-4o" }]
          responseRows := [{ prompt_id := 1, response := some "rawjson",
                             error := none, status := "success", refusal := none,
                             finish_reason := some "stop",
                             prompt_tokens := none, response_tokens := none }]
          events := [Event.call 0] } = []
      ↔ (true = true ∧ ∃ pid, stgOk1.promptInsert = Except.ok pid))
     ∧ (View.status { content := some "hi", status := "success",
                      finish_reason := some "stop", refusal := none } = "success"
        ↔ Option.isSome (View.finish_reason
            { content := some "hi", status := "success",
              finish_reason := some "stop", refusal := none }) = true)
     ∧ ∀ row ∈ GenResult.responseRows
        { view := { content := some "hi", status := "success",
                    finish_reason := some "stop", refusal := none }
          promptRows := [{ prompt := "p", system_message := "sys", model := "gpt-4o" }]
          responseRows := [{ prompt_id := 1, response := some "rawjson",
                             error := none, status := "success", refusal := none,
                             finish_reason := some "stop",
                             prompt_tokens := none, response_tokens := none }]
          events := [Event.call 0] },
         row.status = View.status { content := some "hi", status := "success",
                                    finish_reason := some "stop", refusal := none }
         ∧ (row.status = "success" ↔ (row.response.isSome = true ∧ row.finish_reason.isSome = true))) :=
  ⟨by decide, rfl,
   C2_outcome_invariant envA mgrA stgOk1 remoteOkF "p" "gpt-4o" "sys" true _ (by decide) rfl⟩

/-! ### Claim C8 -/

lemma validateColumnList_eq_error (mkMsg : String × String → String)
    (actuals : List (String × String)) :
    ∀ es e, es.find? (fun x => !(columnFound actuals x)) = some e →
      validateColumnList mkMsg actuals es = Except.error (mkMsg e) := by
  intro es
  induction es with
  | nil => intro e h; simp at h
  | cons a rest ih =>
    intro e h
    by_cases hf : columnFound actuals a
    · rw [List.find?_cons_of_neg _ (by simp [hf])] at h
      rw [validateColumnList, if_pos hf]
      exact ih e h
    · rw [List.find?_cons_of_pos _ (by simp [hf])] at h
      rw [Option.some.injEq] at h
      subst h
      rw [validateColumnList, if_neg hf]

lemma validateColumnList_eq_ok (mkMsg : String × String → String)
    (actuals : List (String × String)) :
    ∀ es, es.find? (fun x => !(columnFound actuals x)) = none →
      validateColumnList mkMsg actuals es = Except.ok () := by
  intro es
  induction es with
  | nil => intro _; rfl
  | cons a rest ih =>
    intro h
    by_cases hf : columnFound actuals a
    · rw [List.find?_cons_of_neg _ (by simp [hf])] at h
      rw [validateColumnList, if_pos hf]
      exact ih h
    · rw [List.find?_cons_of_pos _ (by simp [hf])] at h
      exact absurd h (by simp)

/-- C8: `validate_tables` raises a schema-mismatch error naming exactly the
first missing expected (name, type) pair — first over the `prompts`
expectations, then over the `responses` expectations (`firstUnmatched`
computes that pair, and the raised message `prompts_missing_msg` /
`responses_missing_msg` spells its name and expected type); the type
comparison is case-insensitive (a fresh store with all declared types
lower-cased still validates); and on a fresh store exactly as
`create_tables` declares it, validation never fails. -/
theorem C8_validate_first_missing :
    (∀ pc rc e, firstUnmatched pc expected_prompts_columns = some e →
        validate_tables pc rc = Except.error (prompts_missing_msg e))
    ∧ (∀ pc rc e, firstUnmatched pc expected_prompts_columns = none →
        firstUnmatched rc expected_responses_columns = some e →
        validate_tables pc rc = Except.error (responses_missing_msg e))
    ∧ validate_tables fresh_prompts_columns fresh_responses_columns = Except.ok ()
    ∧ validate_tables (lowerTypes fresh_prompts_columns) (lowerTypes fresh_responses_columns) =
        Except.ok () := by
  refine ⟨?_, ?_, rfl, rfl⟩
  · intro pc rc e h
    unfold firstUnmatched at h
    unfold validate_tables
    rw [validateColumnList_eq_error prompts_missing_msg pc expected_prompts_columns e h]
  · intro pc rc e hnone h
    unfold firstUnmatched at hnone h
    unfold validate_tables
    rw [validateColumnList_eq_ok prompts_missing_msg pc expected_prompts_columns hnone]
    exact validateColumnList_eq_error responses_missing_msg rc expected_responses_columns e h

/-- C8 witness: an empty `prompts` table is missing its first expected
column `id INTEGER`, and validation raises precisely the message naming
it. -/
theorem C8_validate_first_missing_witness :
    firstUnmatched [] expected_prompts_columns = some ("id", "INTEGER") ∧
    validate_tables [] fresh_responses_columns =
      Except.error (prompts_missing_msg ("id", "INTEGER")) :=
  ⟨rfl, C8_validate_first_missing.1 [] fresh_responses_columns ("id", "INTEGER") rfl⟩


end LLMManagerSpec
